import Mathlib

/-!
Shallow embedding of the Sahayata AI volunteer matching, allocation and
impact-scoring core (src/matching_agent.py, src/impact_agent.py,
src/ai_agent_system.py, src/config.py, src/agent.py, src/agent.utils.py).
Python floats are modelled as exact rationals; Python dictionaries as
association lists or if-chains; datetime.now() as an explicit clock input;
mutation of agent state as explicit state passing; a Python exception as
Except.error.
-/

namespace Sahayata

/-- config.py: class ImpactArea(Enum). -/
inductive ImpactArea where
  | education
  | healthcare
  | environment
  | poverty
  | equality
  | disaster_relief
deriving DecidableEq, Repr

/-- config.py: class UrgencyLevel(Enum) with values 1..4. -/
inductive UrgencyLevel where
  | low
  | medium
  | high
  | critical
deriving DecidableEq, Repr

/-- The .value attribute of the UrgencyLevel enum (LOW=1 .. CRITICAL=4). -/
def UrgencyLevel.value : UrgencyLevel → ℚ
  | .low => 1
  | .medium => 2
  | .high => 3
  | .critical => 4

/-- agent.py: dataclass Volunteer (fields used by the core; created_at and
phone omitted, they are never read by the scoring code). The availability
dict is an association list of slot name to boolean. -/
structure Volunteer where
  id : String
  name : String
  skills : List String
  location : String
  availability : List (String × Bool)
  interests : List ImpactArea
  experience_level : String
  languages : List String
  max_hours_per_week : ℕ
  email : String
deriving DecidableEq, Repr

/-- agent.py: dataclass Opportunity (created_at omitted). The timeframe
dict maps names to datetimes, modelled as naturals. -/
structure Opportunity where
  id : String
  title : String
  organization : String
  description : String
  required_skills : List String
  location : String
  impact_area : ImpactArea
  urgency : UrgencyLevel
  timeframe : List (String × ℕ)
  volunteers_needed : ℕ
  resources_required : List (String × ℕ)
deriving DecidableEq, Repr

/-- agent.py: dataclass MatchResult. -/
structure MatchResult where
  volunteer : Volunteer
  opportunity : Opportunity
  match_score : ℚ
  reasoning : List String
  confidence : ℚ
deriving DecidableEq, Repr

/-- The outcomes dictionary passed to record_completion; every numeric
field is read with dict.get and a default, so fields are optional.
feedback defaults to the empty dict. -/
structure Outcomes where
  people_impacted : Option ℚ
  hours_contributed : Option ℚ
  quality_rating : Option ℚ
  sustainability_score : Option ℚ
  feedback : Option (List (String × String))
deriving DecidableEq, Repr

/-- A key of a Python dictionary that may be either a plain string or an
ImpactArea enum member; the two kinds never compare equal, exactly as in
Python where an Enum member is not equal to its string value. -/
inductive PyKey where
  | str (s : String)
  | area (a : ImpactArea)
deriving DecidableEq, Repr

/-- Python builtin min on two numbers: the first argument when it is less
than or equal to the second, else the second. -/
def pymin (a b : ℚ) : ℚ := if a ≤ b then a else b

/-- pymin agrees with the lattice min on ℚ. -/
lemma pymin_eq_min (a b : ℚ) : pymin a b = min a b := (min_def a b).symm

/-- Python dict.get(key, default) over an association list. -/
def dictGet (d : List (PyKey × ℚ)) (k : PyKey) (default : ℚ) : ℚ :=
  match d.find? (fun p => p.1 = k) with
  | some p => p.2
  | none => default

/-- config.py: AgentConfig.IMPACT_MULTIPLIERS, a dict keyed by the plain
strings naming impact areas. -/
def IMPACT_MULTIPLIERS : List (PyKey × ℚ) :=
  [(.str "disaster_relief", 2),
   (.str "healthcare", 3/2),
   (.str "education", 13/10),
   (.str "poverty", 7/5),
   (.str "environment", 6/5),
   (.str "equality", 13/10)]

/-- agent.utils.py: AgentUtils.calculate_urgency_multiplier, a dict keyed
by UrgencyLevel members looked up with .get(urgency_level, 1.0); every
member is a key, so the default is never used. -/
def calculate_urgency_multiplier : UrgencyLevel → ℚ
  | .low => 1/2
  | .medium => 1
  | .high => 3/2
  | .critical => 2

/-- impact_agent.py: ImpactAgent._calculate_impact_score. The people term
is capped at 0.4; the hours term is added without a cap; the area
multiplier is looked up in IMPACT_MULTIPLIERS with the ImpactArea enum
member as key and default 1.0; the result is clamped at 1.0. -/
def calculate_impact_score (o : Opportunity) (outcomes : Outcomes) : ℚ :=
  let people_impacted := outcomes.people_impacted.getD 0
  let hours := outcomes.hours_contributed.getD 0
  let quality := outcomes.quality_rating.getD (1/2)
  let base_score := pymin (people_impacted * (1/10)) (2/5) + hours * quality * (1/20)
  let area_multiplier := dictGet IMPACT_MULTIPLIERS (.area o.impact_area) 1
  let urgency_multiplier := calculate_urgency_multiplier o.urgency
  let sustainability := outcomes.sustainability_score.getD (1/2)
  pymin (base_score * area_multiplier * urgency_multiplier * (1 + sustainability)) 1

/-- The spec's stated area-multiplier table (section 4.3/4.4), keyed by the
impact area itself: disaster_relief 2.0, healthcare 1.5, education 1.3,
poverty 1.4, environment 1.2, equality 1.3. -/
def specAreaMultiplier : ImpactArea → ℚ
  | .disaster_relief => 2
  | .healthcare => 3/2
  | .education => 13/10
  | .poverty => 7/5
  | .environment => 6/5
  | .equality => 13/10

/-- The impact formula exactly as the spec words it (section 4.4): both
base terms independently capped, then the configured area multiplier, the
urgency multiplier and the sustainability bonus, clamped at 1.0. -/
def specImpactScore (o : Opportunity) (outcomes : Outcomes) : ℚ :=
  let people_impacted := outcomes.people_impacted.getD 0
  let hours := outcomes.hours_contributed.getD 0
  let quality := outcomes.quality_rating.getD (1/2)
  let base := pymin (people_impacted * (1/10)) (2/5) + pymin (hours * quality * (1/20)) (3/10)
  let final := base * specAreaMultiplier o.impact_area *
    calculate_urgency_multiplier o.urgency * (1 + outcomes.sustainability_score.getD (1/2))
  pymin final 1

/-- Every lookup of an ImpactArea member in the string-keyed multiplier
table falls through to the default 1.0. -/
lemma dictGet_area_default (a : ImpactArea) :
    dictGet IMPACT_MULTIPLIERS (PyKey.area a) 1 = 1 := by
  cases a <;> rfl

/-- impact_agent.py: the completion record dict built by
ImpactAgent.record_completion; datetime.now() is an explicit clock. -/
structure CompletionRecord where
  volunteer_id : String
  volunteer_name : String
  opportunity_id : String
  opportunity_title : String
  completion_date : ℕ
  hours_contributed : ℚ
  people_impacted : ℚ
  quality_rating : ℚ
  sustainability_score : ℚ
  impact_score : ℚ
  feedback : List (String × String)
  calculated_at : ℕ
deriving DecidableEq, Repr

/-- impact_agent.py: ImpactAgent.record_completion. The method appends the
new record to the agent attribute self.completed_projects; that attribute
is passed in and returned explicitly here, together with the record the
method returns. -/
def record_completion (completed_projects : List CompletionRecord)
    (v : Volunteer) (o : Opportunity) (outcomes : Outcomes) (now : ℕ) :
    List CompletionRecord × CompletionRecord :=
  let impact_score := calculate_impact_score o outcomes
  let completion_record : CompletionRecord :=
    { volunteer_id := v.id
      volunteer_name := v.name
      opportunity_id := o.id
      opportunity_title := o.title
      completion_date := now
      hours_contributed := outcomes.hours_contributed.getD 0
      people_impacted := outcomes.people_impacted.getD 0
      quality_rating := outcomes.quality_rating.getD (1/2)
      sustainability_score := outcomes.sustainability_score.getD (1/2)
      impact_score := impact_score
      feedback := outcomes.feedback.getD []
      calculated_at := now }
  (completed_projects ++ [completion_record], completion_record)

/-- A concrete opportunity used to separate the implemented impact formula
from the formula the spec states. -/
def oppC1 : Opportunity :=
  { id := "opp_c1", title := "Tutoring", organization := "Org",
    description := "d", required_skills := ["teaching"], location := "Metro City",
    impact_area := .education, urgency := .medium, timeframe := [],
    volunteers_needed := 1, resources_required := [] }

/-- Outcomes with ten quality-1.0 hours and nobody counted as impacted. -/
def outC1 : Outcomes :=
  { people_impacted := some 0, hours_contributed := some 10,
    quality_rating := some 1, sustainability_score := some 0, feedback := none }

/-- Closed form of the implemented impact score: the area multiplier
always evaluates to the default 1.0 and drops out. -/
lemma impact_score_closed_form (o : Opportunity) (outcomes : Outcomes) :
    calculate_impact_score o outcomes =
      min ((min ((outcomes.people_impacted.getD 0) * (1/10)) (2/5)
            + (outcomes.hours_contributed.getD 0) * (outcomes.quality_rating.getD (1/2)) * (1/20))
          * calculate_urgency_multiplier o.urgency
          * (1 + outcomes.sustainability_score.getD (1/2))) 1 := by
  simp only [calculate_impact_score, pymin_eq_min, dictGet_area_default, mul_one]

/-- C1 counterexample: on a medium-urgency education opportunity with
outcomes hours = 10, quality = 1, people = 0, sustainability = 0, the code
returns 0.5 (the hours term 10 x 1 x 0.05 = 0.5 enters uncapped and the
area lookup misses, giving multiplier 1.0), while the formula claimed by
the spec gives min(0.5, 0.3) x 1.3 = 0.39. -/
theorem impact_formula_counterexample :
    calculate_impact_score oppC1 outC1 = 1/2 ∧
    specImpactScore oppC1 outC1 = 39/100 ∧
    calculate_impact_score oppC1 outC1 ≠ specImpactScore oppC1 outC1 := by
  have h1 : calculate_impact_score oppC1 outC1 = 1/2 := by
    rw [impact_score_closed_form]
    norm_num [oppC1, outC1, calculate_urgency_multiplier]
  have h2 : specImpactScore oppC1 outC1 = 39/100 := by
    norm_num [specImpactScore, pymin, oppC1, outC1, calculate_urgency_multiplier,
      specAreaMultiplier]
  refine ⟨h1, h2, ?_⟩
  rw [h1, h2]
  norm_num

/-- C1 (amended): the impact score equals min(people x 0.1, 0.4) plus the
UNCAPPED hours x quality x 0.05 term, multiplied by the urgency multiplier
and (1 + sustainability) — the area multiplier is always the default 1.0
because the configured table is string-keyed — then clamped to at most 1. -/
theorem impact_score_formula (o : Opportunity) (outcomes : Outcomes) :
    calculate_impact_score o outcomes =
      min ((min ((outcomes.people_impacted.getD 0) * (1/10)) (2/5)
            + (outcomes.hours_contributed.getD 0) * (outcomes.quality_rating.getD (1/2)) * (1/20))
          * calculate_urgency_multiplier o.urgency
          * (1 + outcomes.sustainability_score.getD (1/2))) 1 :=
  impact_score_closed_form o outcomes

/-- C2: for every opportunity and outcomes with non-negative numeric
fields, the impact score is clamped to at most 1.0. -/
theorem impact_score_le_one (o : Opportunity) (outcomes : Outcomes)
    (_hp : 0 ≤ outcomes.people_impacted.getD 0)
    (_hh : 0 ≤ outcomes.hours_contributed.getD 0)
    (_hq : 0 ≤ outcomes.quality_rating.getD (1/2))
    (_hs : 0 ≤ outcomes.sustainability_score.getD (1/2)) :
    calculate_impact_score o outcomes ≤ 1 := by
  simp only [calculate_impact_score, pymin_eq_min]
  exact min_le_right _ _

/-- A critical disaster-relief opportunity for the extreme-input check. -/
def oppC2 : Opportunity :=
  { id := "opp_c2", title := "Relief", organization := "Org",
    description := "d", required_skills := ["medical"], location := "Coastal Region",
    impact_area := .disaster_relief, urgency := .critical, timeframe := [],
    volunteers_needed := 50, resources_required := [] }

/-- Extreme outcomes: 10000 people impacted and 1000 hours. -/
def outC2 : Outcomes :=
  { people_impacted := some 10000, hours_contributed := some 1000,
    quality_rating := some 1, sustainability_score := some 1, feedback := none }

/-- C2 witness: even with people_impacted = 10000 and hours = 1000 the
score stays at most 1. -/
theorem impact_score_le_one_witness :
    calculate_impact_score oppC2 outC2 ≤ 1 :=
  impact_score_le_one oppC2 outC2 (by decide) (by decide) (by decide) (by decide)

/-- C10: for every ImpactArea enum member, the area multiplier used by
ImpactAgent is the default 1.0, because IMPACT_MULTIPLIERS is keyed by
plain strings while the lookup key is the enum member. -/
theorem area_multiplier_is_always_default (a : ImpactArea) :
    dictGet IMPACT_MULTIPLIERS (PyKey.area a) 1 = 1 :=
  dictGet_area_default a

/-- Concrete inputs for the mutation counterexample. -/
def volC9 : Volunteer :=
  { id := "vol_c9", name := "Ana", skills := ["teaching"], location := "Metro City",
    availability := [("weekends", true)], interests := [.education],
    experience_level := "expert", languages := ["English"],
    max_hours_per_week := 10, email := "ana@example.org" }

/-- Outcomes for the mutation counterexample. -/
def outC9 : Outcomes :=
  { people_impacted := some 5, hours_contributed := some 2,
    quality_rating := some 1, sustainability_score := some 0, feedback := none }

/-- C9 counterexample: record_completion mutates agent-held state — called
with an empty completed_projects list it leaves a non-empty one, so it is
not a side-effect-free function of its explicit inputs. -/
theorem record_completion_mutates_state :
    (record_completion [] volC9 oppC1 outC9 0).1 ≠ [] := by
  simp [record_completion]

/-- C9 (amended): the stateless scoring core aside, record_completion has
exactly one state effect: it appends the returned completion record to the
agent's completed_projects list, and that record carries the impact score
computed by calculate_impact_score. -/
theorem record_completion_state_effect (s : List CompletionRecord)
    (v : Volunteer) (o : Opportunity) (outcomes : Outcomes) (now : ℕ) :
    (record_completion s v o outcomes now).1
        = s ++ [(record_completion s v o outcomes now).2] ∧
    (record_completion s v o outcomes now).2.impact_score
        = calculate_impact_score o outcomes :=
  ⟨rfl, rfl⟩

/-- config.py: AgentConfig.MATCHING_WEIGHTS read with .get(key, 1.0) in
MatchingAgent._calculate_skill_match, so any skill tag that is not one of
the six weight names gets the default weight 1.0. -/
def matching_weight (s : String) : ℚ :=
  if s = "skills" then 2/5
  else if s = "location" then 1/5
  else if s = "interests" then 3/20
  else if s = "urgency" then 1/10
  else if s = "experience" then 1/10
  else if s = "availability" then 1/20
  else 1

/-- config.py: AgentConfig.MIN_MATCH_SCORE. -/
def MIN_MATCH_SCORE : ℚ := 3/10

/-- config.py: AgentConfig.MAX_RECOMMENDATIONS. -/
def MAX_RECOMMENDATIONS : ℕ := 5

/-- matching_agent.py: MatchingAgent._calculate_skill_match. The numerator
sums weights over the set intersection; the denominator sums weights over
the required-skills list as written (a generator over the list, so
duplicate required skills are counted twice there). -/
def calculate_skill_match (volunteer_skills required_skills : List String) : ℚ :=
  if required_skills = [] then 1/2
  else
    let matched_skills := volunteer_skills.toFinset ∩ required_skills.toFinset
    if matched_skills = ∅ then 0
    else (∑ s ∈ matched_skills, matching_weight s) /
      ((required_skills.map matching_weight).sum)

/-- matching_agent.py, line 66: the location sub-score inside
_calculate_compatibility, a case-sensitive string comparison. -/
def locationScore (volunteer_location opportunity_location : String) : ℚ :=
  if volunteer_location = opportunity_location then 1 else 3/10

/-- matching_agent.py: MatchingAgent._calculate_experience_score. -/
def calculate_experience_score (experience_level : String) : ℚ :=
  if experience_level = "beginner" then 3/10
  else if experience_level = "intermediate" then 7/10
  else if experience_level = "expert" then 1
  else 1/2

/-- matching_agent.py: MatchingAgent._calculate_availability_match; 0.8
when any availability slot is true, else 0.2; the timeframe is ignored. -/
def calculate_availability_match (availability : List (String × Bool))
    (_timeframe : List (String × ℕ)) : ℚ :=
  if availability.any (fun p => p.2) then 4/5 else 1/5

/-- matching_agent.py: MatchingAgent._calculate_compatibility, returning
(normalized score, reasoning, confidence). -/
def calculate_compatibility (v : Volunteer) (o : Opportunity) :
    ℚ × List String × ℚ :=
  let skill_score := calculate_skill_match v.skills o.required_skills
  let location_score := locationScore v.location o.location
  let interest_score : ℚ := if o.impact_area ∈ v.interests then 1 else 1/5
  let urgency_score := o.urgency.value * (1/4)
  let exp_score := calculate_experience_score v.experience_level
  let avail_score := calculate_availability_match v.availability o.timeframe
  let score := skill_score * matching_weight "skills"
    + location_score * matching_weight "location"
    + interest_score * matching_weight "interests"
    + pymin urgency_score (matching_weight "urgency")
    + exp_score * matching_weight "experience"
    + avail_score * matching_weight "availability"
  let max_score := matching_weight "skills" + matching_weight "location"
    + matching_weight "interests" + matching_weight "urgency"
    + matching_weight "experience" + matching_weight "availability"
  let reasoning :=
    (if 3/5 < skill_score then ["Strong skill alignment"] else [])
    ++ (if location_score = 1 then ["Perfect location match"] else [])
    ++ (if interest_score = 1 then ["Matches interests"] else [])
    ++ (if 3 ≤ o.urgency.value then ["High urgency need"] else [])
  let normalized_score := if 0 < max_score then score / max_score else 0
  let confidence := pymin (normalized_score * (6/5)) 1
  (normalized_score, reasoning, confidence)

/-- The MatchResult built for one pair inside find_matches and
find_volunteers. -/
def matchResultOf (v : Volunteer) (o : Opportunity) : MatchResult :=
  { volunteer := v
    opportunity := o
    match_score := (calculate_compatibility v o).1
    reasoning := (calculate_compatibility v o).2.1
    confidence := (calculate_compatibility v o).2.2 }

/-- Stable descending insertion by match score: an element is placed
before the first element whose score is less than or equal to its own,
matching the stable behaviour of list.sort(key=..., reverse=True). -/
def insertByScoreDesc (x : MatchResult) : List MatchResult → List MatchResult
  | [] => [x]
  | y :: ys =>
    if y.match_score ≤ x.match_score then x :: y :: ys
    else y :: insertByScoreDesc x ys

/-- Stable sort, descending by match score. -/
def sortByScoreDesc : List MatchResult → List MatchResult
  | [] => []
  | x :: xs => insertByScoreDesc x (sortByScoreDesc xs)

/-- Membership after stable insertion. -/
lemma mem_insertByScoreDesc {z x : MatchResult} {l : List MatchResult}
    (h : z ∈ insertByScoreDesc x l) : z = x ∨ z ∈ l := by
  induction l with
  | nil => simpa [insertByScoreDesc] using h
  | cons y ys ih =>
    simp only [insertByScoreDesc] at h
    split at h
    · rcases List.mem_cons.mp h with h | h
      · exact Or.inl h
      · exact Or.inr h
    · rcases List.mem_cons.mp h with h | h
      · exact Or.inr (h ▸ List.mem_cons_self y ys)
      · rcases ih h with h | h
        · exact Or.inl h
        · exact Or.inr (List.mem_cons_of_mem y h)

/-- Stable insertion preserves the descending-by-score ordering. -/
lemma pairwise_insertByScoreDesc {x : MatchResult} {l : List MatchResult}
    (h : l.Pairwise (fun a b => b.match_score ≤ a.match_score)) :
    (insertByScoreDesc x l).Pairwise (fun a b => b.match_score ≤ a.match_score) := by
  induction l with
  | nil => simp [insertByScoreDesc]
  | cons y ys ih =>
    rcases List.pairwise_cons.mp h with ⟨hy, hys⟩
    simp only [insertByScoreDesc]
    split
    next hle =>
      refine List.pairwise_cons.mpr ⟨?_, h⟩
      intro z hz
      rcases List.mem_cons.mp hz with rfl | hz
      · exact hle
      · exact (hy z hz).trans hle
    next hgt =>
      refine List.pairwise_cons.mpr ⟨?_, ih hys⟩
      intro z hz
      rcases mem_insertByScoreDesc hz with rfl | hz
      · exact (not_le.mp hgt).le
      · exact hy z hz

/-- The stable sort produces a list that is descending by score. -/
lemma pairwise_sortByScoreDesc (l : List MatchResult) :
    (sortByScoreDesc l).Pairwise (fun a b => b.match_score ≤ a.match_score) := by
  induction l with
  | nil => simp [sortByScoreDesc]
  | cons x xs ih => exact pairwise_insertByScoreDesc ih

/-- The boolean predicate selecting results with one given score. -/
def scoreIs (s : ℚ) (m : MatchResult) : Bool := decide (m.match_score = s)

/-- Inserting an element of the given score puts it in front of every
other element of that score already present. -/
lemma filter_insertByScoreDesc_of_eq {x : MatchResult} {s : ℚ}
    (hx : x.match_score = s) (l : List MatchResult) :
    (insertByScoreDesc x l).filter (scoreIs s) = x :: l.filter (scoreIs s) := by
  induction l with
  | nil => simp [insertByScoreDesc, scoreIs, hx]
  | cons y ys ih =>
    simp only [insertByScoreDesc]
    split
    next hle => simp [List.filter_cons, scoreIs, hx]
    next hgt =>
      have hy : ¬ y.match_score = s := by
        intro h
        exact hgt (le_of_eq (h.trans hx.symm))
      simp [List.filter_cons, scoreIs, hy, ih]

/-- Inserting an element of a different score leaves the given score class
unchanged. -/
lemma filter_insertByScoreDesc_of_ne {x : MatchResult} {s : ℚ}
    (hx : ¬ x.match_score = s) (l : List MatchResult) :
    (insertByScoreDesc x l).filter (scoreIs s) = l.filter (scoreIs s) := by
  induction l with
  | nil => simp [insertByScoreDesc, scoreIs, hx]
  | cons y ys ih =>
    simp only [insertByScoreDesc]
    split
    next hle => simp [List.filter_cons, scoreIs, hx]
    next hgt =>
      simp only [List.filter_cons, scoreIs] at ih ⊢
      rw [ih]

/-- Stability of the sort: within one score class the sorted list keeps
exactly the input order. -/
lemma filter_sortByScoreDesc (s : ℚ) (l : List MatchResult) :
    (sortByScoreDesc l).filter (scoreIs s) = l.filter (scoreIs s) := by
  induction l with
  | nil => rfl
  | cons x xs ih =>
    simp only [sortByScoreDesc]
    by_cases hx : x.match_score = s
    · rw [filter_insertByScoreDesc_of_eq hx, ih]
      simp [List.filter_cons, scoreIs, hx]
    · rw [filter_insertByScoreDesc_of_ne hx, ih]
      simp [List.filter_cons, scoreIs, hx]

/-- Filtering a prefix gives a prefix of the filtered list. -/
lemma filter_take_append (p : MatchResult → Bool) (n : ℕ) (l : List MatchResult) :
    l.filter p = (l.take n).filter p ++ (l.drop n).filter p := by
  conv_lhs => rw [← List.take_append_drop n l]
  rw [List.filter_append]

/-- matching_agent.py: the list of MatchResults accumulated by the loop in
find_matches, in input order, keeping pairs with score >= MIN_MATCH_SCORE. -/
def matchesPool (v : Volunteer) (opportunities : List Opportunity) :
    List MatchResult :=
  (opportunities.map (matchResultOf v)).filter
    (fun m => decide (MIN_MATCH_SCORE ≤ m.match_score))

/-- matching_agent.py: MatchingAgent.find_matches — filter by the 0.3
threshold, sort descending by score, return the top 5. -/
def find_matches (v : Volunteer) (opportunities : List Opportunity) :
    List MatchResult :=
  (sortByScoreDesc (matchesPool v opportunities)).take MAX_RECOMMENDATIONS

/-- matching_agent.py: the list accumulated by the loop in find_volunteers,
in input order, keeping pairs with score >= MIN_MATCH_SCORE + 0.1. -/
def volunteersPool (o : Opportunity) (volunteers : List Volunteer) :
    List MatchResult :=
  (volunteers.map (fun v => matchResultOf v o)).filter
    (fun m => decide (MIN_MATCH_SCORE + 1/10 ≤ m.match_score))

/-- matching_agent.py: MatchingAgent.find_volunteers — filter by the 0.4
threshold, sort descending, return up to volunteers_needed results. -/
def find_volunteers (o : Opportunity) (volunteers : List Volunteer) :
    List MatchResult :=
  (sortByScoreDesc (volunteersPool o volunteers)).take o.volunteers_needed

/-- C4: find_matches returns at most 5 results and find_volunteers at most
volunteers_needed results, both sorted descending by match score, and
within any class of equal scores the output preserves the relative input
order of the qualifying pool (stable tie-break), the whole computation
being a pure function of its inputs. -/
theorem ranking_bounded_sorted_stable (v : Volunteer)
    (opportunities : List Opportunity) (o : Opportunity)
    (volunteers : List Volunteer) :
    (find_matches v opportunities).length ≤ 5 ∧
    (find_matches v opportunities).Pairwise
      (fun a b => b.match_score ≤ a.match_score) ∧
    (∀ s : ℚ, ∃ t, (matchesPool v opportunities).filter (scoreIs s)
        = (find_matches v opportunities).filter (scoreIs s) ++ t) ∧
    (find_volunteers o volunteers).length ≤ o.volunteers_needed ∧
    (find_volunteers o volunteers).Pairwise
      (fun a b => b.match_score ≤ a.match_score) ∧
    (∀ s : ℚ, ∃ t, (volunteersPool o volunteers).filter (scoreIs s)
        = (find_volunteers o volunteers).filter (scoreIs s) ++ t) := by
  refine ⟨?_, ?_, ?_, ?_, ?_, ?_⟩
  · simp [find_matches, MAX_RECOMMENDATIONS]
  · exact List.Pairwise.sublist (List.take_sublist _ _)
      (pairwise_sortByScoreDesc (matchesPool v opportunities))
  · intro s
    refine ⟨((sortByScoreDesc (matchesPool v opportunities)).drop
      MAX_RECOMMENDATIONS).filter (scoreIs s), ?_⟩
    rw [← filter_sortByScoreDesc s (matchesPool v opportunities)]
    exact filter_take_append (scoreIs s) MAX_RECOMMENDATIONS _
  · simp [find_volunteers]
  · exact List.Pairwise.sublist (List.take_sublist _ _)
      (pairwise_sortByScoreDesc (volunteersPool o volunteers))
  · intro s
    refine ⟨((sortByScoreDesc (volunteersPool o volunteers)).drop
      o.volunteers_needed).filter (scoreIs s), ?_⟩
    rw [← filter_sortByScoreDesc s (volunteersPool o volunteers)]
    exact filter_take_append (scoreIs s) o.volunteers_needed _

/-- Every configured or default skill weight is positive. -/
lemma matching_weight_pos (s : String) : 0 < matching_weight s := by
  unfold matching_weight
  split_ifs <;> norm_num

/-- Summing weights over the deduplicated set of a list is at most summing
them over the list itself. -/
lemma toFinset_sum_le_map_sum (l : List String) :
    (∑ s ∈ l.toFinset, matching_weight s) ≤ (l.map matching_weight).sum := by
  induction l with
  | nil => simp
  | cons x xs ih =>
    simp only [List.toFinset_cons, List.map_cons, List.sum_cons]
    by_cases hx : x ∈ xs.toFinset
    · rw [Finset.insert_eq_self.mpr hx]
      exact ih.trans (le_add_of_nonneg_left (matching_weight_pos x).le)
    · rw [Finset.sum_insert hx]
      exact add_le_add_left ih _

/-- The denominator of the skill sub-score is positive whenever the
required-skills list is non-empty. -/
lemma required_weight_sum_pos {rs : List String} (h : rs ≠ []) :
    0 < (rs.map matching_weight).sum := by
  cases rs with
  | nil => exact absurd rfl h
  | cons x xs =>
    simp only [List.map_cons, List.sum_cons]
    have hxs : 0 ≤ (xs.map matching_weight).sum := by
      apply List.sum_nonneg
      intro a ha
      rcases List.mem_map.mp ha with ⟨y, _, rfl⟩
      exact (matching_weight_pos y).le
    linarith [matching_weight_pos x]

/-- The skill sub-score is non-negative. -/
lemma skill_match_nonneg (vs rs : List String) :
    0 ≤ calculate_skill_match vs rs := by
  simp only [calculate_skill_match]
  split_ifs with h1 h2
  · norm_num
  · exact le_refl (0 : ℚ)
  · apply div_nonneg
    · exact Finset.sum_nonneg fun i _ => (matching_weight_pos i).le
    · exact (required_weight_sum_pos h1).le

/-- The skill sub-score is at most one. -/
lemma skill_match_le_one (vs rs : List String) :
    calculate_skill_match vs rs ≤ 1 := by
  simp only [calculate_skill_match]
  split_ifs with h1 h2
  · norm_num
  · norm_num
  · rw [div_le_one (required_weight_sum_pos h1)]
    calc (∑ s ∈ vs.toFinset ∩ rs.toFinset, matching_weight s)
        ≤ ∑ s ∈ rs.toFinset, matching_weight s :=
          Finset.sum_le_sum_of_subset_of_nonneg Finset.inter_subset_right
            (fun i _ _ => (matching_weight_pos i).le)
      _ ≤ (rs.map matching_weight).sum := toFinset_sum_le_map_sum rs

/-- C7: the skill sub-score is monotone in the volunteer skill set — for a
fixed non-empty required-skills list, enlarging the set of volunteer
skills never decreases the sub-score. -/
theorem skill_match_monotone (rs S Sp : List String) (hrs : rs ≠ [])
    (hsub : S.toFinset ⊆ Sp.toFinset) :
    calculate_skill_match S rs ≤ calculate_skill_match Sp rs := by
  simp only [calculate_skill_match]
  rw [if_neg hrs, if_neg hrs]
  have hmono : S.toFinset ∩ rs.toFinset ⊆ Sp.toFinset ∩ rs.toFinset :=
    Finset.inter_subset_inter hsub (Finset.Subset.refl _)
  by_cases h1 : S.toFinset ∩ rs.toFinset = ∅
  · rw [if_pos h1]
    split_ifs with h2
    · exact le_refl (0 : ℚ)
    · exact div_nonneg (Finset.sum_nonneg fun i _ => (matching_weight_pos i).le)
        (required_weight_sum_pos hrs).le
  · have h2 : ¬ Sp.toFinset ∩ rs.toFinset = ∅ := by
      intro h
      exact h1 (Finset.subset_empty.mp (h ▸ hmono))
    rw [if_neg h1, if_neg h2]
    have hsum : (∑ s ∈ S.toFinset ∩ rs.toFinset, matching_weight s)
        ≤ ∑ s ∈ Sp.toFinset ∩ rs.toFinset, matching_weight s :=
      Finset.sum_le_sum_of_subset_of_nonneg hmono
        (fun i _ _ => (matching_weight_pos i).le)
    exact (div_le_div_iff_of_pos_right (required_weight_sum_pos hrs)).mpr hsum

/-- C7 witness: a volunteer with one of two required skills scores at most
what the same volunteer with both skills scores. -/
theorem skill_match_monotone_witness :
    calculate_skill_match ["teaching"] ["teaching", "medical"]
      ≤ calculate_skill_match ["teaching", "medical"] ["teaching", "medical"] :=
  skill_match_monotone ["teaching", "medical"] ["teaching"]
    ["teaching", "medical"] (by decide) (by decide)

/-- The weight table entry for the key named skills. -/
lemma mw_skills : matching_weight "skills" = 2/5 := rfl

/-- The weight table entry for the key named location. -/
lemma mw_location : matching_weight "location" = 1/5 := rfl

/-- The weight table entry for the key named interests. -/
lemma mw_interests : matching_weight "interests" = 3/20 := rfl

/-- The weight table entry for the key named urgency. -/
lemma mw_urgency : matching_weight "urgency" = 1/10 := rfl

/-- The weight table entry for the key named experience. -/
lemma mw_experience : matching_weight "experience" = 1/10 := rfl

/-- The weight table entry for the key named availability. -/
lemma mw_availability : matching_weight "availability" = 1/20 := rfl

/-- For every urgency level the urgency contribution saturates at the full
0.1 weight, since even LOW gives 1 x 0.25 = 0.25 above the 0.1 cap. -/
lemma urgency_term_eq (u : UrgencyLevel) :
    pymin (u.value * (1/4)) (1/10) = 1/10 := by
  cases u <;> norm_num [pymin, UrgencyLevel.value]

/-- The location sub-score lies between 0 and 1. -/
lemma locationScore_bounds (a b : String) :
    0 ≤ locationScore a b ∧ locationScore a b ≤ 1 := by
  unfold locationScore
  split_ifs <;> exact ⟨by norm_num, by norm_num⟩

/-- The experience sub-score lies between 0 and 1. -/
lemma experience_bounds (e : String) :
    0 ≤ calculate_experience_score e ∧ calculate_experience_score e ≤ 1 := by
  unfold calculate_experience_score
  split_ifs <;> exact ⟨by norm_num, by norm_num⟩

/-- The availability sub-score lies between 0 and 1. -/
lemma availability_bounds (av : List (String × Bool)) (tf : List (String × ℕ)) :
    0 ≤ calculate_availability_match av tf ∧
      calculate_availability_match av tf ≤ 1 := by
  unfold calculate_availability_match
  split_ifs <;> exact ⟨by norm_num, by norm_num⟩

/-- Closed form of the normalized compatibility score: the weights sum to
exactly 1, so normalization divides by 1, and the urgency term is the
constant 0.1. -/
lemma compatibility_score_eq (v : Volunteer) (o : Opportunity) :
    (calculate_compatibility v o).1 =
      calculate_skill_match v.skills o.required_skills * (2/5)
      + locationScore v.location o.location * (1/5)
      + (if o.impact_area ∈ v.interests then (1:ℚ) else 1/5) * (3/20)
      + 1/10
      + calculate_experience_score v.experience_level * (1/10)
      + calculate_availability_match v.availability o.timeframe * (1/20) := by
  simp only [calculate_compatibility, mw_skills, mw_location, mw_interests,
    mw_urgency, mw_experience, mw_availability, urgency_term_eq]
  rw [if_pos (by norm_num : (0:ℚ) < 2/5 + 1/5 + 3/20 + 1/10 + 1/10 + 1/20)]
  norm_num

/-- C6: for every volunteer/opportunity pair the normalized compatibility
score and the confidence both lie in [0,1], and the confidence equals
min(score x 1.2, 1.0). -/
theorem compatibility_score_confidence_bounds (v : Volunteer) (o : Opportunity) :
    0 ≤ (calculate_compatibility v o).1 ∧ (calculate_compatibility v o).1 ≤ 1 ∧
    0 ≤ (calculate_compatibility v o).2.2 ∧ (calculate_compatibility v o).2.2 ≤ 1 ∧
    (calculate_compatibility v o).2.2 = min ((calculate_compatibility v o).1 * (6/5)) 1 := by
  have hconf : (calculate_compatibility v o).2.2
      = pymin ((calculate_compatibility v o).1 * (6/5)) 1 := rfl
  have hs0 := skill_match_nonneg v.skills o.required_skills
  have hs1 := skill_match_le_one v.skills o.required_skills
  have hL := locationScore_bounds v.location o.location
  have hE := experience_bounds v.experience_level
  have hA := availability_bounds v.availability o.timeframe
  have hI : 0 ≤ (if o.impact_area ∈ v.interests then (1:ℚ) else 1/5) ∧
      (if o.impact_area ∈ v.interests then (1:ℚ) else 1/5) ≤ 1 := by
    split_ifs <;> exact ⟨by norm_num, by norm_num⟩
  have hscore0 : 0 ≤ (calculate_compatibility v o).1 := by
    rw [compatibility_score_eq]
    rcases hL with ⟨hL0, hL1⟩
    rcases hE with ⟨hE0, hE1⟩
    rcases hA with ⟨hA0, hA1⟩
    rcases hI with ⟨hI0, hI1⟩
    linarith
  have hscore1 : (calculate_compatibility v o).1 ≤ 1 := by
    rw [compatibility_score_eq]
    rcases hL with ⟨hL0, hL1⟩
    rcases hE with ⟨hE0, hE1⟩
    rcases hA with ⟨hA0, hA1⟩
    rcases hI with ⟨hI0, hI1⟩
    linarith
  refine ⟨hscore0, hscore1, ?_, ?_, ?_⟩
  · rw [hconf, pymin_eq_min]
    exact le_min (by linarith) (by norm_num)
  · rw [hconf, pymin_eq_min]
    exact min_le_right _ _
  · rw [hconf, pymin_eq_min]

/-- Lowercasing a string character by character, the effect of the Python
str.lower method on ASCII location tags; used to express the case
insensitivity the spec asserts for the location comparison. -/
def lowerStr (s : String) : String := ⟨s.data.map Char.toLower⟩

/-- C5 counterexample: the two locations differ only in letter case, so
the claimed case-insensitive comparison would award the perfect 1.0, but
the code compares with == and returns the 0.3 floor. -/
theorem location_case_insensitive_counterexample :
    lowerStr "Metro City" = lowerStr "metro city" ∧
    locationScore "Metro City" "metro city" ≠ 1 ∧
    locationScore "Metro City" "metro city" = 3/10 := by
  have h : locationScore "Metro City" "metro city" = 3/10 := by
    unfold locationScore
    rw [if_neg (by decide)]
  refine ⟨by decide, ?_, h⟩
  rw [h]
  norm_num

/-- C5 (amended): the location sub-score is 1.0 exactly when the two
location strings are equal as written (case-sensitively), and 0.3 in every
other case, including strings differing only in letter case. -/
theorem location_subscore_spec (a b : String) :
    (locationScore a b = 1 ↔ a = b) ∧ (a ≠ b → locationScore a b = 3/10) := by
  unfold locationScore
  split_ifs with h
  · exact ⟨⟨fun _ => h, fun _ => rfl⟩, fun hab => absurd h hab⟩
  · refine ⟨⟨fun h310 => ?_, fun hab => absurd hab h⟩, fun _ => rfl⟩
    norm_num at h310

/-- C5 witness: two distinct locations get the 0.3 floor. -/
theorem location_subscore_spec_witness :
    locationScore "Metro City" "Suburb Town" = 3/10 :=
  (location_subscore_spec "Metro City" "Suburb Town").2 (by decide)

/-- C3: the threshold filters use inclusive comparisons — a pair scoring
exactly 0.3 appears in the find_matches output, and a pair scoring exactly
0.4 appears in the find_volunteers output (when at least one volunteer is
needed), each exercised on the singleton candidate list. -/
theorem threshold_boundaries (v : Volunteer) (o : Opportunity)
    (w : Volunteer) (p : Opportunity) :
    ((calculate_compatibility v o).1 = 3/10 →
      matchResultOf v o ∈ find_matches v [o]) ∧
    ((calculate_compatibility w p).1 = 2/5 → 1 ≤ p.volunteers_needed →
      matchResultOf w p ∈ find_volunteers p [w]) := by
  constructor
  · intro h
    have hm : (matchResultOf v o).match_score = 3/10 := h
    have hpool : matchesPool v [o] = [matchResultOf v o] := by
      simp [matchesPool, MIN_MATCH_SCORE, hm]
    simp only [find_matches]
    rw [hpool]
    simp [sortByScoreDesc, insertByScoreDesc, MAX_RECOMMENDATIONS]
  · intro h hn
    have hm : (matchResultOf w p).match_score = 2/5 := h
    have hpool : volunteersPool p [w] = [matchResultOf w p] := by
      norm_num [volunteersPool, MIN_MATCH_SCORE, hm]
    simp only [find_volunteers]
    rw [hpool]
    obtain ⟨n, hns⟩ : ∃ n, p.volunteers_needed = n + 1 :=
      ⟨p.volunteers_needed - 1, by omega⟩
    simp [sortByScoreDesc, insertByScoreDesc, hns, List.take]

/-- A volunteer whose compatibility with oppT1 is exactly the 0.3
threshold: no matched skill, mismatched location and interests, expert
experience, no availability. -/
def volT1 : Volunteer :=
  { id := "vol_t1", name := "T1", skills := ["cooking"],
    location := "Metro City", availability := [("weekends", false)],
    interests := [], experience_level := "expert", languages := [],
    max_hours_per_week := 5, email := "t1@example.org" }

/-- The opportunity paired with volT1. -/
def oppT1 : Opportunity :=
  { id := "opp_t1", title := "Clinic", organization := "Org",
    description := "d", required_skills := ["medical"],
    location := "Suburb Town", impact_area := .healthcare,
    urgency := .medium, timeframe := [], volunteers_needed := 1,
    resources_required := [] }

/-- A volunteer whose compatibility with oppT2 is exactly the 0.4
threshold: no matched skill, same location, mismatched interests, beginner
experience, available on weekends. -/
def volT2 : Volunteer :=
  { id := "vol_t2", name := "T2", skills := ["cooking"],
    location := "Metro City", availability := [("weekends", true)],
    interests := [], experience_level := "beginner", languages := [],
    max_hours_per_week := 5, email := "t2@example.org" }

/-- The opportunity paired with volT2. -/
def oppT2 : Opportunity :=
  { id := "opp_t2", title := "Clinic", organization := "Org",
    description := "d", required_skills := ["medical"],
    location := "Metro City", impact_area := .healthcare,
    urgency := .high, timeframe := [], volunteers_needed := 3,
    resources_required := [] }

/-- The boundary pair volT1/oppT1 scores exactly 0.3. -/
lemma compat_volT1_eval : (calculate_compatibility volT1 oppT1).1 = 3/10 := by
  rw [compatibility_score_eq]
  have h1 : calculate_skill_match volT1.skills oppT1.required_skills = 0 := by
    simp only [calculate_skill_match, volT1, oppT1]
    rw [if_neg (by decide), if_pos (by decide)]
  have h2 : locationScore volT1.location oppT1.location = 3/10 := rfl
  have h3 : calculate_experience_score volT1.experience_level = 1 := rfl
  have h4 : calculate_availability_match volT1.availability oppT1.timeframe
      = 1/5 := rfl
  have h5 : ¬ oppT1.impact_area ∈ volT1.interests := by decide
  rw [h1, h2, h3, h4, if_neg h5]
  norm_num

/-- The boundary pair volT2/oppT2 scores exactly 0.4. -/
lemma compat_volT2_eval : (calculate_compatibility volT2 oppT2).1 = 2/5 := by
  rw [compatibility_score_eq]
  have h1 : calculate_skill_match volT2.skills oppT2.required_skills = 0 := by
    simp only [calculate_skill_match, volT2, oppT2]
    rw [if_neg (by decide), if_pos (by decide)]
  have h2 : locationScore volT2.location oppT2.location = 1 := rfl
  have h3 : calculate_experience_score volT2.experience_level = 3/10 := rfl
  have h4 : calculate_availability_match volT2.availability oppT2.timeframe
      = 4/5 := rfl
  have h5 : ¬ oppT2.impact_area ∈ volT2.interests := by decide
  rw [h1, h2, h3, h4, if_neg h5]
  norm_num

/-- C3 witness: the two boundary pairs are present in the two outputs. -/
theorem threshold_boundaries_witness :
    matchResultOf volT1 oppT1 ∈ find_matches volT1 [oppT1] ∧
    matchResultOf volT2 oppT2 ∈ find_volunteers oppT2 [volT2] :=
  ⟨(threshold_boundaries volT1 oppT1 volT2 oppT2).1 compat_volT1_eval,
   (threshold_boundaries volT1 oppT1 volT2 oppT2).2 compat_volT2_eval
     (by decide)⟩

/-- ai_agent_system.py: one entry of the assigned_volunteers list built by
ResourceOptimizationAgent.allocate_resources. -/
structure AllocationEntry where
  volunteer_id : String
  match_score : ℚ
  role : String
deriving DecidableEq, Repr

/-- ai_agent_system.py: the allocation dict returned by allocate_resources. -/
structure Allocation where
  assigned_volunteers : List AllocationEntry
  resource_distribution : List (String × ℕ)
  expected_impact : ℚ
  efficiency_score : ℚ
deriving DecidableEq, Repr

/-- ai_agent_system.py: ResourceOptimizationAgent.impact_multipliers, a
dict keyed by ImpactArea members (unlike the string-keyed config table),
read with .get(impact_area, 1.0); every member is a key. -/
def roaImpactMultiplier : ImpactArea → ℚ
  | .disaster_relief => 2
  | .healthcare => 3/2
  | .education => 13/10
  | .poverty => 7/5
  | .environment => 6/5
  | .equality => 13/10

/-- ai_agent_system.py: ResourceOptimizationAgent._calculate_expected_impact:
urgency ordinal x 0.25, times the mean candidate match score (0 for an
empty candidate list), times the area multiplier. -/
def calculate_expected_impact (o : Opportunity)
    (volunteers : List MatchResult) : ℚ :=
  let base_impact := o.urgency.value * (1/4)
  let skill_multiplier : ℚ :=
    if volunteers = [] then 0
    else (volunteers.map (fun m => m.match_score)).sum / (volunteers.length : ℚ)
  base_impact * skill_multiplier * roaImpactMultiplier o.impact_area

/-- ai_agent_system.py: allocate_resources calls self._assign_role, but
ResourceOptimizationAgent defines no such method, so in Python the
attribute access raises AttributeError; modelled as an error value. -/
def assign_role (_v : Volunteer) (_o : Opportunity) : Except String String :=
  Except.error "AttributeError: _assign_role"

/-- ai_agent_system.py: allocate_resources calls self._calculate_efficiency,
but ResourceOptimizationAgent defines no such method either, so the call
raises AttributeError; modelled as an error value. -/
def calculate_efficiency (_o : Opportunity)
    (_volunteers : List MatchResult) : Except String ℚ :=
  Except.error "AttributeError: _calculate_efficiency"

/-- ai_agent_system.py: ResourceOptimizationAgent.allocate_resources. The
candidate list holds MatchResults (the code sorts on .match_score and
reads .volunteer): sort descending, truncate to volunteers_needed, assign
roles, compute expected impact, compute the efficiency score. -/
def allocate_resources (o : Opportunity) (volunteers : List MatchResult) :
    Except String Allocation := do
  let sorted_volunteers := (sortByScoreDesc volunteers).take o.volunteers_needed
  let assigned ← sorted_volunteers.mapM (fun m => do
    let role ← assign_role m.volunteer o
    pure ({ volunteer_id := m.volunteer.id, match_score := m.match_score,
            role := role } : AllocationEntry))
  let expected_impact := calculate_expected_impact o sorted_volunteers
  let efficiency ← calculate_efficiency o sorted_volunteers
  pure { assigned_volunteers := assigned, resource_distribution := [],
         expected_impact := expected_impact, efficiency_score := efficiency }

/-- The opportunity used to exercise allocate_resources on an empty
candidate list. -/
def oppC8 : Opportunity :=
  { id := "opp_c8", title := "Health Clinic", organization := "Org",
    description := "d", required_skills := ["medical"],
    location := "Metro City", impact_area := .healthcare,
    urgency := .high, timeframe := [], volunteers_needed := 15,
    resources_required := [] }

/-- C8: with an empty candidate list the expected impact computed by the
helper is indeed 0.0, but allocate_resources itself does not return
normally — it raises AttributeError, because _calculate_efficiency is
called yet never defined on ResourceOptimizationAgent. -/
theorem allocate_resources_empty_raises :
    allocate_resources oppC8 [] =
      Except.error "AttributeError: _calculate_efficiency" ∧
    calculate_expected_impact oppC8 [] = 0 := by
  constructor
  · rfl
  · simp [calculate_expected_impact]

end Sahayata
